import Mathlib

/-!
Verification development for the `slicense` license server.

The definitions below are a shallow embedding of the Go sources:
* `database/models.go` and `database/database.go` (persistence layer),
* the license domain service (`license/service.go`) and HTTP verify handler
  (`license/handler.go`),
* the auth service (`web/service/auth_service.go`) and the JWT utilities
  (`utils/jwt.go`).

Modelling conventions:
* Times are epoch seconds (`Nat`); `time.Time.After` becomes strict `<`.
* The MySQL database is a record of in-memory tables; each per-operation
  transaction is explicit state passing: a mutating operation returns
  `Option LicenseError × Database`, where an error result is paired with the
  unchanged (rolled-back) state.
* Failures of individual SQL statements that depend on the outside world
  (the audit-log INSERT, the SELECT in GetLicense) are modelled by explicit
  fault-injection flags, so that rollback behaviour is provable.
* The MySQL driver (go-sql-driver/mysql) renders a duplicate-entry error as
  `Error 1062 (23000): Duplicate entry <value> for key <keyname>` (the real
  message wraps value and keyname in single quotes; the quotes are dropped
  here, which does not affect any comparison made by the code under study,
  since the code compares against a constant that contains neither the
  value nor the keyname).
-/

set_option autoImplicit false

namespace SLicense

/-- `database.License` from `database/models.go`. The auto-increment `ID`
column is not modelled (no claim mentions it). -/
structure License where
  key : String
  product : String
  expiresAt : Option Nat
  ownerEmail : String
  ownerName : String
  isActivated : Bool
deriving Repr, DecidableEq

/-- `database.AuditLog` from `database/models.go`. -/
structure AuditLog where
  action : String
  licenseKey : String
  product : String
  changedAt : Nat
  details : String
deriving Repr, DecidableEq

/-- The MySQL state owned by `database.Database`: the `licenses` and
`audit_log` tables (the `Accounts` table is accessed through a separate
`*sql.DB` handle by the auth service and is modelled separately). -/
structure Database where
  licenses : List License
  audit : List AuditLog
deriving Repr, DecidableEq

/-- The error outcomes of the persistence and service layer:
`invalidKeyFormat` is `license.ErrInvalidLicenseKey`, `invalidEmail` is
`license.ErrInvalidEmail`, `duplicateKey` is `database.ErrDuplicateKey`,
`notFound` is `database.ErrLicenseNotFound`; `insertFailed` carries the
wrapped driver message of `fmt.Errorf("license insert failed: %w", err)`;
`auditInsertFailed` and `queryFailed` stand for the wrapped errors of the
audit INSERT and the license SELECT. -/
inductive LicenseError where
  | invalidKeyFormat
  | invalidEmail
  | duplicateKey
  | insertFailed (msg : String)
  | auditInsertFailed
  | notFound
  | queryFailed
deriving Repr, DecidableEq

/-- The message produced by `(*mysql.MySQLError).Error()` for a violation of
a UNIQUE key: `Error 1062 (23000): Duplicate entry <value> for key <name>`
(quotes around the value and the key name are dropped, see the header). -/
def mysqlDuplicateEntryMessage (entry keyName : String) : String :=
  "Error 1062 (23000): Duplicate entry " ++ entry ++ " for key " ++ keyName

/-- `isDuplicateKeyError` from `database/database.go`: an exact string
comparison of the error text with a constant. -/
def isDuplicateKeyError (msg : String) : Bool :=
  msg == "Error 1062: Duplicate entry"

/-- The license row INSERTed by `Database.AddLicense`; the `is_activated`
column takes its schema DEFAULT `FALSE`. -/
def insertedLicenseRow (key product : String) (expiresAt : Option Nat)
    (ownerEmail ownerName : String) : License :=
  { key := key, product := product, expiresAt := expiresAt,
    ownerEmail := ownerEmail, ownerName := ownerName, isActivated := false }

/-- The `ADD` audit row INSERTed by `Database.AddLicense`, with its
`fmt.Sprintf("Owner: %s (%s)", ownerName, ownerEmail)` details. -/
def addAuditRow (key product ownerEmail ownerName : String) (now : Nat) : AuditLog :=
  { action := "ADD", licenseKey := key, product := product, changedAt := now,
    details := "Owner: " ++ ownerName ++ " (" ++ ownerEmail ++ ")" }

/-- The `DELETE` audit row INSERTed by `Database.DeleteLicense`; its
`details` column is not set by the INSERT. -/
def deleteAuditRow (key product : String) (now : Nat) : AuditLog :=
  { action := "DELETE", licenseKey := key, product := product, changedAt := now,
    details := "" }

/-- `Database.AddLicense` from `database/database.go`: inside one
transaction, INSERT the license row (a UNIQUE violation on
`uk_license_product` surfaces the driver error, classified by
`isDuplicateKeyError`), INSERT the `ADD` audit row, then commit; any error
rolls the transaction back, returning the unchanged state. -/
def Database.AddLicense (d : Database) (key product : String) (expiresAt : Option Nat)
    (ownerEmail ownerName : String) (now : Nat) (auditInsertFails : Bool) :
    Option LicenseError × Database :=
  if d.licenses.any (fun l => l.key == key && l.product == product) then
    if isDuplicateKeyError (mysqlDuplicateEntryMessage (key ++ "-" ++ product)
        "uk_license_product") then
      (some LicenseError.duplicateKey, d)
    else
      (some (LicenseError.insertFailed (mysqlDuplicateEntryMessage (key ++ "-" ++ product)
        "uk_license_product")), d)
  else
    if auditInsertFails then
      (some LicenseError.auditInsertFailed, d)
    else
      (none,
       { licenses := d.licenses ++ [insertedLicenseRow key product expiresAt ownerEmail ownerName],
         audit := d.audit ++ [addAuditRow key product ownerEmail ownerName now] })

/-- `Database.DeleteLicense` from `database/database.go`: inside one
transaction, DELETE the row, fail with `ErrLicenseNotFound` when zero rows
were affected, INSERT the `DELETE` audit row, then commit; any error rolls
back. The `details` column is not set by this INSERT (modelled as `""`). -/
def Database.DeleteLicense (d : Database) (key product : String) (now : Nat)
    (auditInsertFails : Bool) : Option LicenseError × Database :=
  if (d.licenses.filter (fun l => !(l.key == key && l.product == product))).length ==
      d.licenses.length then
    (some LicenseError.notFound, d)
  else
    if auditInsertFails then
      (some LicenseError.auditInsertFailed, d)
    else
      (none,
       { licenses := d.licenses.filter (fun l => !(l.key == key && l.product == product)),
         audit := d.audit ++ [deleteAuditRow key product now] })

/-- `Database.GetLicense` from `database/database.go`: SELECT the row by
`(license_key, product)`; `sql.ErrNoRows` becomes `ErrLicenseNotFound`, any
other scan failure becomes the wrapped `license query failed` error
(injected through `queryFails`). -/
def Database.GetLicense (d : Database) (key product : String) (queryFails : Bool) :
    Except LicenseError License :=
  if queryFails then
    Except.error LicenseError.queryFailed
  else
    match d.licenses.find? (fun l => l.key == key && l.product == product) with
    | some l => Except.ok l
    | none => Except.error LicenseError.notFound

/-- A character admitted by the `[A-Z0-9]` class of the license-key regex. -/
def isKeyChar (c : Char) : Bool :=
  (65 ≤ c.toNat && c.toNat ≤ 90) || (48 ≤ c.toNat && c.toNat ≤ 57)

/-- `isValidLicenseKey` from `license/service.go`: the anchored regex
`^[A-Z0-9]{4}-[A-Z0-9]{4}-[A-Z0-9]{4}-[A-Z0-9]{4}$`, i.e. exactly 19
characters with hyphens at positions 4, 9 and 14 and `[A-Z0-9]` elsewhere. -/
def isValidLicenseKey (key : String) : Bool :=
  let cs := key.data
  cs.length == 19 &&
    (List.range 19).all (fun i =>
      if i == 4 || i == 9 || i == 14 then
        cs.getD i ' ' == '-'
      else
        isKeyChar (cs.getD i ' '))

/-- Splitting a character list at every occurrence of `sep`: the
computation `String.split` performs, stated over `String.data` by
structural recursion so that it evaluates under kernel reduction. -/
def splitChar (sep : Char) : List Char → List (List Char)
  | [] => [[]]
  | c :: rest =>
    if c == sep then
      [] :: splitChar sep rest
    else
      match splitChar sep rest with
      | [] => [[c]]
      | h :: t => (c :: h) :: t

/-- `isValidEmail` from `license/service.go`: the anchored regex
`^[^@]+@[^@]+\.[^@]+$`. A string matches exactly when it contains a single
`@` (so splitting on `@` yields two parts), the part before the `@` is
nonempty, and the part after the `@` contains a `.` that is neither its
first nor its last character. -/
def isValidEmail (email : String) : Bool :=
  match splitChar '@' email.data with
  | [localPart, domain] =>
    decide (0 < localPart.length) &&
      (List.range domain.length).any (fun k =>
        decide (1 ≤ k) && decide (k + 2 ≤ domain.length) && (domain.getD k ' ' == '.'))
  | _ => false

/-- `Service.AddLicense` from `license/service.go`: validate the key format,
then the owner email, then delegate to `Database.AddLicense`. -/
def Service.AddLicense (d : Database) (key product ownerEmail ownerName : String)
    (expiresAt : Option Nat) (now : Nat) (auditInsertFails : Bool) :
    Option LicenseError × Database :=
  if !isValidLicenseKey key then
    (some LicenseError.invalidKeyFormat, d)
  else if !isValidEmail ownerEmail then
    (some LicenseError.invalidEmail, d)
  else
    Database.AddLicense d key product expiresAt ownerEmail ownerName now auditInsertFails

/-- `Service.GetLicense` from `license/service.go` (a pass-through). -/
def Service.GetLicense (d : Database) (key product : String) (queryFails : Bool) :
    Except LicenseError License :=
  Database.GetLicense d key product queryFails

/-- `Service.DeleteLicense` from `license/service.go` (a pass-through). -/
def Service.DeleteLicense (d : Database) (key product : String) (now : Nat)
    (auditInsertFails : Bool) : Option LicenseError × Database :=
  Database.DeleteLicense d key product now auditInsertFails

/-- A JSON scalar as emitted by the verify handler. -/
inductive JsonVal where
  | bool (b : Bool)
  | str (s : String)
  | time (t : Nat)
deriving Repr, DecidableEq

/-- `license.VerifyResponse` from `license/handler.go`, with the zero value
of every field that carries an `omitempty` tag as its default. -/
structure VerifyResponse where
  valid : Bool
  reason : String := ""
  key : String := ""
  product : String := ""
  expiresAt : Option Nat := none
  ownerEmail : String := ""
  ownerName : String := ""
  isActivated : Bool := false
deriving Repr, DecidableEq

/-- The JSON object produced by `encoding/json` for a `VerifyResponse`:
fields in struct order; every field except `valid` has an `omitempty` tag,
so it is dropped when it holds its zero value (`""`, `nil`, `false`). -/
def VerifyResponse.jsonFields (r : VerifyResponse) : List (String × JsonVal) :=
  [("valid", JsonVal.bool r.valid)]
    ++ (if r.reason == "" then [] else [("reason", JsonVal.str r.reason)])
    ++ (if r.key == "" then [] else [("key", JsonVal.str r.key)])
    ++ (if r.product == "" then [] else [("product", JsonVal.str r.product)])
    ++ (match r.expiresAt with
        | none => []
        | some t => [("expires_at", JsonVal.time t)])
    ++ (if r.ownerEmail == "" then [] else [("owner_email", JsonVal.str r.ownerEmail)])
    ++ (if r.ownerName == "" then [] else [("owner_name", JsonVal.str r.ownerName)])
    ++ (if r.isActivated then [("is_activated", JsonVal.bool true)] else [])

/-- `Handler.VerifyLicense` from `license/handler.go`, after the request has
been decoded: any lookup error yields `{valid: false, reason: "License not
found"}`; a license whose `ExpiresAt` is set and strictly before `now`
(`time.Now().After(*license.ExpiresAt)`) yields `{valid: false, reason:
"License expired"}`; otherwise the license fields are returned with
`valid: true`. -/
def Handler.VerifyLicense (lookup : Except LicenseError License) (now : Nat) :
    VerifyResponse :=
  match lookup with
  | Except.error _ => { valid := false, reason := "License not found" }
  | Except.ok lic =>
    if lic.expiresAt.any (fun t => decide (t < now)) then
      { valid := false, reason := "License expired" }
    else
      { valid := true, key := lic.key, product := lic.product, expiresAt := lic.expiresAt,
        ownerEmail := lic.ownerEmail, ownerName := lic.ownerName,
        isActivated := lic.isActivated }

/-- `database.Account` from `database/models.go`. -/
structure Account where
  id : Nat
  username : String
  email : String
  passwordHash : String
  createdAt : String
  lastLogin : Option String
  lastLoginIP : Option String
deriving Repr, DecidableEq

/-- Modelled from the spec: `utils.HashPassword` is not under `src/`; the
spec asks for a salted adaptive hash (bcrypt per the README). The hash is
modelled as an injective tagging of the password; the salt and the cost
factor are not observable by any claim under study. -/
def HashPassword (password : String) : String :=
  "bcrypt$" ++ password

/-- Modelled from the spec: `utils.CheckPasswordHash` is not under `src/`;
it compares a plaintext password against a stored hash (bcrypt
`CompareHashAndPassword` per the README). -/
def CheckPasswordHash (password hash : String) : Bool :=
  hash == HashPassword password

/-- `AuthService.Register` from `web/service/auth_service.go`: reject a
password/confirmation mismatch with the Turkish message `şifreler
uyuşmuyor` before any database access, hash the password, then INSERT into
`Accounts`; a UNIQUE violation on `username` or `email` surfaces the raw
driver error. Returns the error (if any) together with the resulting
`Accounts` table. -/
def AuthService.Register (accounts : List Account)
    (username email password passwordRepeat : String) : Option String × List Account :=
  if password != passwordRepeat then
    (some "şifreler uyuşmuyor", accounts)
  else
    let hashed := HashPassword password
    if accounts.any (fun a => a.username == username || a.email == email) then
      (some (mysqlDuplicateEntryMessage username "username"), accounts)
    else
      (none, accounts ++
        [{ id := accounts.length + 1, username := username, email := email,
           passwordHash := hashed, createdAt := "", lastLogin := none,
           lastLoginIP := none }])

/-- `AuthService.Login` from `web/service/auth_service.go`: SELECT the
account by email — any scan failure (in particular `sql.ErrNoRows`) yields
the generic message `e-posta veya şifre hatalı`; a failed password
comparison yields the same message. The best-effort `last_login` UPDATE has
its error discarded by the code and is not modelled (no claim observes
it). -/
def AuthService.Login (accounts : List Account) (email password : String) :
    Except String Account :=
  match accounts.find? (fun a => a.email == email) with
  | none => Except.error "e-posta veya şifre hatalı"
  | some acc =>
    if !CheckPasswordHash password acc.passwordHash then
      Except.error "e-posta veya şifre hatalı"
    else
      Except.ok acc

/-- The token signing secret hardcoded in `utils/jwt.go`. -/
def jwtKey : String :=
  "8394URNV893JFNCUW819SJDHUC8EISJCJHD72W8XDMJDJEJWIZIDMRM38W9D938284949WUCNHDEU"

/-- `utils.Claims` from `utils/jwt.go`: the custom `user_id` claim plus the
registered `exp` and `iat` claims used by `GenerateJWT`. -/
structure Claims where
  userID : Int
  exp : Nat
  iat : Nat
deriving Repr, DecidableEq

/-- An HMAC-SHA256 tag, modelled as an ideal MAC: the tag is determined by
the secret and the signed message and admits no collisions or forgeries. -/
structure Hmac where
  secret : String
  message : Claims
deriving Repr, DecidableEq

/-- Computing the ideal MAC of `hmacSha256` (the `SigningMethodHS256` of
`github.com/golang-jwt/jwt/v5`). -/
def hmacSha256 (secret : String) (message : Claims) : Hmac :=
  ⟨secret, message⟩

/-- A signed token: its claims payload together with its signature part. -/
structure Token where
  claims : Claims
  sig : Hmac
deriving Repr, DecidableEq

/-- `GenerateJWT` from `utils/jwt.go`: claims bind the account identifier,
`exp = now + 24h`, `iat = now`; the token is signed with HS256 under the
process-wide `jwtKey`. -/
def GenerateJWT (userID : Int) (now : Nat) : Token :=
  let claims : Claims := { userID := userID, exp := now + 24 * 3600, iat := now }
  { claims := claims, sig := hmacSha256 jwtKey claims }

/-- The distinct error values returned by `jwt.ParseWithClaims` of
`github.com/golang-jwt/jwt/v5`: `signatureInvalid` stands for an error
wrapping `jwt.ErrTokenSignatureInvalid`, `expired` for one wrapping
`jwt.ErrTokenExpired`. -/
inductive JwtError where
  | signatureInvalid
  | expired
deriving Repr, DecidableEq

/-- Models `jwt.ParseWithClaims` with the HS256 keyfunc of `utils/jwt.go`:
the library verifies the signature against the key, then validates the
claims; `exp` is valid exactly when `now` is strictly before it (zero
leeway). The two failures produce the library's distinct error values. -/
def jwtParseWithClaims (tok : Token) (now : Nat) : Except JwtError Claims :=
  if tok.sig = hmacSha256 jwtKey tok.claims then
    if now < tok.claims.exp then
      Except.ok tok.claims
    else
      Except.error JwtError.expired
  else
    Except.error JwtError.signatureInvalid

/-- `ParseJWT` from `utils/jwt.go`: calls `jwt.ParseWithClaims` and, on any
failure, returns the library error unchanged (`return nil, err`). -/
def ParseJWT (tok : Token) (now : Nat) : Except JwtError Claims :=
  jwtParseWithClaims tok now

/-- The email shape exactly as the specification words it: one `@` and at
least one `.` somewhere after the `@`. Stated for comparison against
`isValidEmail`, the regex the code implements. -/
def claimedEmailShape (email : String) : Bool :=
  match splitChar '@' email.data with
  | [_localPart, domain] => domain.contains '.'
  | _ => false

/-- The driver's duplicate-entry message always carries the duplicated
value, so the exact comparison of `isDuplicateKeyError` never matches it. -/
theorem isDuplicateKeyError_driver_message (entry keyName : String) :
    isDuplicateKeyError (mysqlDuplicateEntryMessage entry keyName) = false := by
  have hne : mysqlDuplicateEntryMessage entry keyName ≠ "Error 1062: Duplicate entry" := by
    intro heq
    have hlen := congrArg String.length heq
    have e1 : ("Error 1062 (23000): Duplicate entry " : String).length = 36 := rfl
    have e2 : (" for key " : String).length = 9 := rfl
    have e3 : ("Error 1062: Duplicate entry" : String).length = 27 := rfl
    rw [mysqlDuplicateEntryMessage, String.length_append, String.length_append,
        String.length_append, e1, e2, e3] at hlen
    omega
  simp [isDuplicateKeyError, hne]

/-- The persistence layer never produces the service-level validation
errors: `Database.AddLicense` returns neither `invalidKeyFormat` nor
`invalidEmail`. -/
theorem Database.addLicense_fst_ne (d : Database) (key product : String)
    (expiresAt : Option Nat) (ownerEmail ownerName : String) (now : Nat) (af : Bool) :
    (Database.AddLicense d key product expiresAt ownerEmail ownerName now af).1 ≠
        some LicenseError.invalidKeyFormat ∧
    (Database.AddLicense d key product expiresAt ownerEmail ownerName now af).1 ≠
        some LicenseError.invalidEmail := by
  unfold Database.AddLicense
  split
  · simp [isDuplicateKeyError_driver_message]
  · split <;> simp

/-- C2: `Service.AddLicense` raises the key-format error exactly for
strings rejected by the `^[A-Z0-9]{4}(-[A-Z0-9]{4}){3}$` pattern, and for
every rejected key the call returns before touching the database, leaving
the state unchanged. -/
theorem addLicense_invalidKeyFormat_iff (d : Database)
    (key product ownerEmail ownerName : String) (expiresAt : Option Nat) (now : Nat)
    (af : Bool) :
    ((Service.AddLicense d key product ownerEmail ownerName expiresAt now af).1 =
        some LicenseError.invalidKeyFormat ↔ isValidLicenseKey key = false) ∧
    (isValidLicenseKey key = false →
      Service.AddLicense d key product ownerEmail ownerName expiresAt now af =
        (some LicenseError.invalidKeyFormat, d)) := by
  have hdb := Database.addLicense_fst_ne d key product expiresAt ownerEmail ownerName now af
  unfold Service.AddLicense
  cases hk : isValidLicenseKey key with
  | false => simp
  | true => cases he : isValidEmail ownerEmail <;> simp [hdb.1]

/-- Witness for C2 at a concrete malformed key. -/
theorem addLicense_invalidKeyFormat_iff_witness :
    isValidLicenseKey "bad" = false ∧
    Service.AddLicense ⟨[], []⟩ "bad" "P" "a@b.com" "N" none 0 false =
      (some LicenseError.invalidKeyFormat, ⟨[], []⟩) := by
  refine ⟨by decide, ?_⟩
  exact (addLicense_invalidKeyFormat_iff ⟨[], []⟩ "bad" "P" "a@b.com" "N" none 0 false).2
    (by decide)

/-- C10: the verify handler maps every lookup error — `ErrLicenseNotFound`
as well as any lower-level query failure — to the same
`{valid: false, reason: "License not found"}` response. -/
theorem verify_uniform_error_response (d : Database) (key product : String) (now : Nat)
    (e : LicenseError) :
    Handler.VerifyLicense (Except.error e) now =
      { valid := false, reason := "License not found" } ∧
    Handler.VerifyLicense (Database.GetLicense d key product true) now =
      { valid := false, reason := "License not found" } :=
  ⟨rfl, rfl⟩

/-- Every `Login` failure carries the one generic message. -/
theorem login_error_eq (accounts : List Account) (email password e : String)
    (h : AuthService.Login accounts email password = Except.error e) :
    e = "e-posta veya şifre hatalı" := by
  unfold AuthService.Login at h
  cases hf : accounts.find? (fun a => a.email == email) with
  | none =>
    rw [hf] at h
    injection h with h2
    exact h2.symm
  | some acc =>
    rw [hf] at h
    dsimp only at h
    cases hc : CheckPasswordHash password acc.passwordHash with
    | false =>
      rw [hc] at h
      simp only [Bool.not_false, if_pos] at h
      injection h with h2
      exact h2.symm
    | true =>
      rw [hc] at h
      simp only [Bool.not_true, if_neg] at h
      cases h

/-- C6: a login failing because no account has the email and a login
failing because the password does not match produce errors with identical
content. -/
theorem login_errors_indistinguishable (accounts1 : List Account)
    (email1 password1 : String) (accounts2 : List Account) (email2 password2 : String)
    (e1 e2 : String)
    (h1 : AuthService.Login accounts1 email1 password1 = Except.error e1)
    (h2 : AuthService.Login accounts2 email2 password2 = Except.error e2) :
    e1 = e2 := by
  rw [login_error_eq accounts1 email1 password1 e1 h1,
      login_error_eq accounts2 email2 password2 e2 h2]

/-- Witness for C6: a nonexistent email and a wrong password against an
existing account yield the same error. -/
theorem login_errors_indistinguishable_witness :
    AuthService.Login [] "a@b.com" "pw" = Except.error "e-posta veya şifre hatalı" ∧
    AuthService.Login
        [{ id := 1, username := "u", email := "u@x.com",
           passwordHash := HashPassword "right", createdAt := "", lastLogin := none,
           lastLoginIP := none }] "u@x.com" "wrong" =
      Except.error "e-posta veya şifre hatalı" ∧
    ("e-posta veya şifre hatalı" : String) = "e-posta veya şifre hatalı" := by
  refine ⟨rfl, rfl, ?_⟩
  exact login_errors_indistinguishable [] "a@b.com" "pw"
    [{ id := 1, username := "u", email := "u@x.com",
       passwordHash := HashPassword "right", createdAt := "", lastLogin := none,
       lastLoginIP := none }] "u@x.com" "wrong" _ _ rfl rfl

/-- C7: a password/confirmation mismatch makes `Register` fail with the
mismatch error before any database write, leaving the `Accounts` table
unchanged. -/
theorem register_mismatch_before_write (accounts : List Account)
    (username email password passwordRepeat : String) (h : password ≠ passwordRepeat) :
    AuthService.Register accounts username email password passwordRepeat =
      (some "şifreler uyuşmuyor", accounts) := by
  unfold AuthService.Register
  simp [h]

/-- Witness for C7 at a concrete mismatched pair. -/
theorem register_mismatch_before_write_witness :
    ("a" : String) ≠ "b" ∧
    AuthService.Register [] "u" "e@x.com" "a" "b" = (some "şifreler uyuşmuyor", []) :=
  ⟨by decide, register_mismatch_before_write [] "u" "e@x.com" "a" "b" (by decide)⟩

/-- C4: deleting a `(key, product)` pair with no matching license row
returns `ErrLicenseNotFound` with the state — audit log included —
unchanged; and whenever the `DELETE` audit insert fails, the whole
transaction rolls back, leaving the license row (and everything else)
intact, with an error reported. -/
theorem deleteLicense_notFound_and_rollback (d : Database) (key product : String)
    (now : Nat) (af : Bool) :
    ((d.licenses.any fun l => l.key == key && l.product == product) = false →
      Database.DeleteLicense d key product now af = (some LicenseError.notFound, d)) ∧
    (af = true →
      (Database.DeleteLicense d key product now af).2 = d ∧
      (Database.DeleteLicense d key product now af).1 ≠ none) := by
  constructor
  · intro h
    have hall : ∀ l ∈ d.licenses, (l.key == key && l.product == product) = false := by
      intro l hl
      by_contra hcontra
      have : (l.key == key && l.product == product) = true := by
        cases hx : (l.key == key && l.product == product)
        · exact absurd hx hcontra
        · rfl
      have : d.licenses.any (fun l => l.key == key && l.product == product) = true :=
        List.any_eq_true.mpr ⟨l, hl, this⟩
      rw [h] at this
      cases this
    have hfilter :
        d.licenses.filter (fun l => !(l.key == key && l.product == product)) = d.licenses := by
      apply List.filter_eq_self.mpr
      intro a ha
      rw [hall a ha]
      rfl
    unfold Database.DeleteLicense
    rw [hfilter]
    simp
  · intro haf
    subst haf
    unfold Database.DeleteLicense
    split
    · exact ⟨rfl, by simp⟩
    · exact ⟨rfl, by simp⟩

/-- Witness for C4 on the empty database. -/
theorem deleteLicense_notFound_and_rollback_witness :
    Database.DeleteLicense ⟨[], []⟩ "K" "P" 0 true = (some LicenseError.notFound, ⟨[], []⟩) ∧
    (Database.DeleteLicense ⟨[], []⟩ "K" "P" 0 true).2 = ⟨[], []⟩ := by
  have h := deleteLicense_notFound_and_rollback ⟨[], []⟩ "K" "P" 0 true
  exact ⟨h.1 (by decide), (h.2 rfl).1⟩

/-- `Database.AddLicense` is atomic: on success both the license row and
the `ADD` audit row are appended; on any error neither is; the existing
audit log is always preserved as a prefix. -/
theorem Database.addLicense_atomic (d : Database) (key product : String)
    (expiresAt : Option Nat) (ownerEmail ownerName : String) (now : Nat) (af : Bool) :
    ((Database.AddLicense d key product expiresAt ownerEmail ownerName now af).1 = none →
      (Database.AddLicense d key product expiresAt ownerEmail ownerName now af).2.licenses =
          d.licenses ++ [insertedLicenseRow key product expiresAt ownerEmail ownerName] ∧
      (Database.AddLicense d key product expiresAt ownerEmail ownerName now af).2.audit =
          d.audit ++ [addAuditRow key product ownerEmail ownerName now]) ∧
    ((Database.AddLicense d key product expiresAt ownerEmail ownerName now af).1 ≠ none →
      (Database.AddLicense d key product expiresAt ownerEmail ownerName now af).2 = d) ∧
    (∃ appended,
      (Database.AddLicense d key product expiresAt ownerEmail ownerName now af).2.audit =
        d.audit ++ appended) := by
  unfold Database.AddLicense
  split
  · split
    · exact ⟨by simp, fun _ => rfl, ⟨[], by simp⟩⟩
    · exact ⟨by simp, fun _ => rfl, ⟨[], by simp⟩⟩
  · split
    · exact ⟨by simp, fun _ => rfl, ⟨[], by simp⟩⟩
    · exact ⟨fun _ => ⟨rfl, rfl⟩, by simp, ⟨_, rfl⟩⟩

/-- `Database.DeleteLicense` is atomic: on success the row removal and the
`DELETE` audit row happen together; on any error the state is unchanged;
the existing audit log is always preserved as a prefix. -/
theorem Database.deleteLicense_atomic (d : Database) (key product : String) (now : Nat)
    (af : Bool) :
    ((Database.DeleteLicense d key product now af).1 = none →
      (Database.DeleteLicense d key product now af).2.licenses =
          d.licenses.filter (fun l => !(l.key == key && l.product == product)) ∧
      (Database.DeleteLicense d key product now af).2.audit =
          d.audit ++ [deleteAuditRow key product now]) ∧
    ((Database.DeleteLicense d key product now af).1 ≠ none →
      (Database.DeleteLicense d key product now af).2 = d) ∧
    (∃ appended,
      (Database.DeleteLicense d key product now af).2.audit = d.audit ++ appended) := by
  unfold Database.DeleteLicense
  split
  · exact ⟨by simp, fun _ => rfl, ⟨[], by simp⟩⟩
  · split
    · exact ⟨by simp, fun _ => rfl, ⟨[], by simp⟩⟩
    · exact ⟨fun _ => ⟨rfl, rfl⟩, by simp, ⟨_, rfl⟩⟩

/-- C5: both mutating license operations perform the row mutation and the
matching audit append in one transaction — either both take effect or the
state is untouched — and neither operation ever rewrites or removes an
existing `audit_log` entry (the old log is a prefix of the new one). The
read-only operations (`GetLicense`, `ListLicenses`, `GetAuditLogs`) take no
state to a new state at all. -/
theorem mutation_audit_atomic (d : Database) (key product ownerEmail ownerName : String)
    (expiresAt : Option Nat) (now : Nat) (af : Bool) :
    (((Database.AddLicense d key product expiresAt ownerEmail ownerName now af).1 = none →
      (Database.AddLicense d key product expiresAt ownerEmail ownerName now af).2.licenses =
          d.licenses ++ [insertedLicenseRow key product expiresAt ownerEmail ownerName] ∧
      (Database.AddLicense d key product expiresAt ownerEmail ownerName now af).2.audit =
          d.audit ++ [addAuditRow key product ownerEmail ownerName now]) ∧
    ((Database.AddLicense d key product expiresAt ownerEmail ownerName now af).1 ≠ none →
      (Database.AddLicense d key product expiresAt ownerEmail ownerName now af).2 = d) ∧
    (∃ appended,
      (Database.AddLicense d key product expiresAt ownerEmail ownerName now af).2.audit =
        d.audit ++ appended)) ∧
    (((Database.DeleteLicense d key product now af).1 = none →
      (Database.DeleteLicense d key product now af).2.licenses =
          d.licenses.filter (fun l => !(l.key == key && l.product == product)) ∧
      (Database.DeleteLicense d key product now af).2.audit =
          d.audit ++ [deleteAuditRow key product now]) ∧
    ((Database.DeleteLicense d key product now af).1 ≠ none →
      (Database.DeleteLicense d key product now af).2 = d) ∧
    (∃ appended,
      (Database.DeleteLicense d key product now af).2.audit = d.audit ++ appended)) :=
  ⟨Database.addLicense_atomic d key product expiresAt ownerEmail ownerName now af,
   Database.deleteLicense_atomic d key product now af⟩

/-- Witness for C5: a successful add appends exactly the `ADD` audit row,
and a failed delete leaves the state unchanged. -/
theorem mutation_audit_atomic_witness :
    (Database.AddLicense ⟨[], []⟩ "K" "P" none "a@b.com" "N" 0 false).2.audit =
      [] ++ [addAuditRow "K" "P" "a@b.com" "N" 0] ∧
    (Database.DeleteLicense ⟨[], []⟩ "K" "P" 0 false).2 = ⟨[], []⟩ := by
  have h := mutation_audit_atomic ⟨[], []⟩ "K" "P" "a@b.com" "N" none 0 false
  exact ⟨(h.1.1 (by decide)).2, h.2.2.1 (by decide)⟩

/-- C3 (failing input): adding `(ABCD-1234-EFGH-5678, Demo)` twice. The
second call fails, and exactly one license row remains, but the error is
the generic wrapped `license insert failed` driver message, not
`ErrDuplicateKey`: the exact string comparison in `isDuplicateKeyError`
can never match a real driver message, which always carries the duplicated
entry value. -/
theorem addLicense_duplicate_generic_error :
    (Service.AddLicense
        (Service.AddLicense ⟨[], []⟩ "ABCD-1234-EFGH-5678" "Demo" "a@b.com" "A B"
          none 0 false).2
        "ABCD-1234-EFGH-5678" "Demo" "a@b.com" "A B" none 1 false).1 =
      some (LicenseError.insertFailed
        (mysqlDuplicateEntryMessage "ABCD-1234-EFGH-5678-Demo" "uk_license_product")) ∧
    (Service.AddLicense
        (Service.AddLicense ⟨[], []⟩ "ABCD-1234-EFGH-5678" "Demo" "a@b.com" "A B"
          none 0 false).2
        "ABCD-1234-EFGH-5678" "Demo" "a@b.com" "A B" none 1 false).1 ≠
      some LicenseError.duplicateKey ∧
    (Service.AddLicense
        (Service.AddLicense ⟨[], []⟩ "ABCD-1234-EFGH-5678" "Demo" "a@b.com" "A B"
          none 0 false).2
        "ABCD-1234-EFGH-5678" "Demo" "a@b.com" "A B" none 1 false).2.licenses.length = 1 ∧
    (∀ entry keyName, isDuplicateKeyError (mysqlDuplicateEntryMessage entry keyName) = false) :=
  ⟨by decide, by decide, by decide, isDuplicateKeyError_driver_message⟩

/-- C1 (counterexample): the invalid reason is the string `License not
found`, not `not found`; and for a valid, never-expiring, not-activated
license the JSON response omits the `expires_at` and `is_activated` fields
entirely (`omitempty`) instead of carrying them as `null`/`false`. -/
theorem verify_claim_shape_refuted :
    (Handler.VerifyLicense (Except.error LicenseError.notFound) 0).reason =
      "License not found" ∧
    ("License not found" : String) ≠ "not found" ∧
    (Handler.VerifyLicense
        (Except.ok ⟨"ABCD-1234-EFGH-5678", "Demo", none, "a@b.com", "A B", false⟩)
        0).valid = true ∧
    (Handler.VerifyLicense
        (Except.ok ⟨"ABCD-1234-EFGH-5678", "Demo", none, "a@b.com", "A B", false⟩)
        0).jsonFields.lookup "expires_at" = none ∧
    (Handler.VerifyLicense
        (Except.ok ⟨"ABCD-1234-EFGH-5678", "Demo", none, "a@b.com", "A B", false⟩)
        0).jsonFields.lookup "is_activated" = none :=
  ⟨rfl, by decide, rfl, rfl, rfl⟩

/-- C1 (amended): an absent license yields exactly the JSON fields
`valid: false, reason: "License not found"`; a license whose expiry is set
and strictly before now yields exactly `valid: false, reason: "License
expired"`; otherwise the response has `valid: true`, no `reason`, and each
license field is present exactly when `omitempty` keeps it: the string
fields when non-empty, `expires_at` when the expiry is set, `is_activated`
when it is `true`. -/
theorem verify_response_amended (lic : License) (now : Nat) :
    (∀ e : LicenseError,
      (Handler.VerifyLicense (Except.error e) now).jsonFields =
        [("valid", JsonVal.bool false), ("reason", JsonVal.str "License not found")]) ∧
    (∀ t : Nat, lic.expiresAt = some t → t < now →
      (Handler.VerifyLicense (Except.ok lic) now).jsonFields =
        [("valid", JsonVal.bool false), ("reason", JsonVal.str "License expired")]) ∧
    (lic.expiresAt.any (fun t => decide (t < now)) = false →
      ((Handler.VerifyLicense (Except.ok lic) now).jsonFields.lookup "valid" =
          some (JsonVal.bool true) ∧
       (Handler.VerifyLicense (Except.ok lic) now).jsonFields.lookup "reason" = none ∧
       (Handler.VerifyLicense (Except.ok lic) now).jsonFields.lookup "key" =
          (if lic.key = "" then none else some (JsonVal.str lic.key)) ∧
       (Handler.VerifyLicense (Except.ok lic) now).jsonFields.lookup "product" =
          (if lic.product = "" then none else some (JsonVal.str lic.product)) ∧
       (Handler.VerifyLicense (Except.ok lic) now).jsonFields.lookup "expires_at" =
          lic.expiresAt.map JsonVal.time ∧
       (Handler.VerifyLicense (Except.ok lic) now).jsonFields.lookup "owner_email" =
          (if lic.ownerEmail = "" then none else some (JsonVal.str lic.ownerEmail)) ∧
       (Handler.VerifyLicense (Except.ok lic) now).jsonFields.lookup "owner_name" =
          (if lic.ownerName = "" then none else some (JsonVal.str lic.ownerName)) ∧
       (Handler.VerifyLicense (Except.ok lic) now).jsonFields.lookup "is_activated" =
          (if lic.isActivated = true then some (JsonVal.bool true) else none))) := by
  refine ⟨fun e => rfl, ?_, ?_⟩
  · intro t ht hlt
    have hresp : Handler.VerifyLicense (Except.ok lic) now =
        { valid := false, reason := "License expired" } := by
      unfold Handler.VerifyLicense
      dsimp only
      rw [ht]
      simp [hlt]
    rw [hresp]
    rfl
  · intro hne
    have hresp : Handler.VerifyLicense (Except.ok lic) now =
        { valid := true, key := lic.key, product := lic.product,
          expiresAt := lic.expiresAt, ownerEmail := lic.ownerEmail,
          ownerName := lic.ownerName, isActivated := lic.isActivated } := by
      unfold Handler.VerifyLicense
      dsimp only
      rw [hne]
      simp
    rw [hresp]
    rcases lic with ⟨k, p, ea, oe, onm, act⟩
    unfold VerifyResponse.jsonFields
    dsimp only
    rcases ea with _ | t <;>
      cases hk : k == "" <;> cases hp : p == "" <;> cases hoe : oe == "" <;>
      cases hon : onm == "" <;> cases act <;>
      simp_all [List.lookup]

/-- Witness for C1 (amended) at concrete expired and valid licenses. -/
theorem verify_response_amended_witness :
    (Handler.VerifyLicense
        (Except.ok ⟨"K", "P", some 3, "a@b.com", "A B", false⟩) 5).jsonFields =
      [("valid", JsonVal.bool false), ("reason", JsonVal.str "License expired")] ∧
    (Handler.VerifyLicense
        (Except.ok ⟨"K", "P", some 9, "a@b.com", "A B", false⟩) 5).jsonFields.lookup
      "expires_at" = some (JsonVal.time 9) := by
  have h1 := verify_response_amended ⟨"K", "P", some 3, "a@b.com", "A B", false⟩ 5
  have h2 := verify_response_amended ⟨"K", "P", some 9, "a@b.com", "A B", false⟩ 5
  refine ⟨h1.2.1 3 rfl (by decide), ?_⟩
  have h3 := (h2.2.2 (by decide)).2.2.2.2.1
  simpa using h3

/-- C8 (counterexample): `a@.c` has exactly one `@` and a `.` after it —
the shape the claim states — yet `AddLicense` with a well-formed key
rejects it with the invalid-email error, because the regex also demands a
character between the `@` and the `.`. -/
theorem email_claim_refuted :
    claimedEmailShape "a@.c" = true ∧
    (Service.AddLicense ⟨[], []⟩ "AAAA-AAAA-AAAA-AAAA" "P" "a@.c" "N" none 0 false).1 =
      some LicenseError.invalidEmail := by
  exact ⟨by decide, by decide⟩

/-- C8 (amended): for a well-formed key, `AddLicense` raises the
invalid-email error exactly when the owner email fails the regex
`^[^@]+@[^@]+\.[^@]+$`: exactly one `@`, at least one character before it,
and a `.` after the `@` with at least one character between the `@` and
that `.` and at least one character after it. -/
theorem addLicense_invalidEmail_iff (d : Database)
    (key product ownerEmail ownerName : String) (expiresAt : Option Nat) (now : Nat)
    (af : Bool) (hk : isValidLicenseKey key = true) :
    ((Service.AddLicense d key product ownerEmail ownerName expiresAt now af).1 =
        some LicenseError.invalidEmail ↔ isValidEmail ownerEmail = false) := by
  have hdb := Database.addLicense_fst_ne d key product expiresAt ownerEmail ownerName now af
  unfold Service.AddLicense
  rw [hk]
  cases he : isValidEmail ownerEmail <;> simp [hdb.2]

/-- Witness for C8 (amended) at a concrete dot-free email. -/
theorem addLicense_invalidEmail_iff_witness :
    isValidLicenseKey "AAAA-AAAA-AAAA-AAAA" = true ∧
    (Service.AddLicense ⟨[], []⟩ "AAAA-AAAA-AAAA-AAAA" "P" "nodot" "N" none 0 false).1 =
      some LicenseError.invalidEmail := by
  refine ⟨by decide, ?_⟩
  exact (addLicense_invalidEmail_iff ⟨[], []⟩ "AAAA-AAAA-AAAA-AAAA" "P" "nodot" "N"
    none 0 false (by decide)).mpr (by decide)

/-- C9 (counterexample): a token signed under a different secret and a
correctly signed but expired token are both rejected, but with the
library's two distinct error values — `ParseJWT` returns the underlying
error unchanged instead of a single `InvalidToken`. -/
theorem jwt_single_error_refuted :
    ParseJWT { claims := { userID := 1, exp := 100, iat := 0 },
               sig := hmacSha256 "not-the-secret" { userID := 1, exp := 100, iat := 0 } }
      0 = Except.error JwtError.signatureInvalid ∧
    ParseJWT (GenerateJWT 1 0) (24 * 3600) = Except.error JwtError.expired ∧
    JwtError.signatureInvalid ≠ JwtError.expired := by
  refine ⟨rfl, rfl, by decide⟩

/-- C9 (amended): issuance binds the account identifier, with expiry
exactly 24 hours after issuance and the issuance instant recorded;
verification rejects every token whose signature does not match the
process-wide secret (with the signature error) and every correctly signed
token whose expiry is not in the future (with the expiry error), and
accepts the rest — the two rejections carry the library's distinct errors
rather than one indistinguishable `InvalidToken`. -/
theorem jwt_issue_and_parse (userID : Int) (now : Nat) (tok : Token) (now2 : Nat) :
    ((GenerateJWT userID now).claims.userID = userID ∧
     (GenerateJWT userID now).claims.exp = now + 24 * 3600 ∧
     (GenerateJWT userID now).claims.iat = now) ∧
    (tok.sig ≠ hmacSha256 jwtKey tok.claims →
      ParseJWT tok now2 = Except.error JwtError.signatureInvalid) ∧
    (tok.sig = hmacSha256 jwtKey tok.claims → tok.claims.exp ≤ now2 →
      ParseJWT tok now2 = Except.error JwtError.expired) ∧
    (tok.sig = hmacSha256 jwtKey tok.claims → now2 < tok.claims.exp →
      ParseJWT tok now2 = Except.ok tok.claims) := by
  refine ⟨⟨rfl, rfl, rfl⟩, ?_, ?_, ?_⟩
  · intro h
    unfold ParseJWT jwtParseWithClaims
    rw [if_neg h]
  · intro h hle
    unfold ParseJWT jwtParseWithClaims
    rw [if_pos h, if_neg (Nat.not_lt.mpr hle)]
  · intro h hlt
    unfold ParseJWT jwtParseWithClaims
    rw [if_pos h, if_pos hlt]

/-- Witness for C9 (amended): a freshly issued token expires exactly at
issuance plus 24 hours and is rejected as expired from that instant on. -/
theorem jwt_issue_and_parse_witness :
    (GenerateJWT 7 0).claims.exp = 0 + 24 * 3600 ∧
    ParseJWT (GenerateJWT 7 0) 86400 = Except.error JwtError.expired := by
  have h := jwt_issue_and_parse 7 0 (GenerateJWT 7 0) 86400
  exact ⟨h.1.2.1, h.2.2.1 rfl (by decide)⟩
